import Mathlib

/-!
Verification of the `prbot` command-line tool (`src/prbot/main.py`).

The program is sequential glue: the `generate-pr` command reads a token from
the environment, computes the diff of the current branch against
`origin/main`, uploads the diff to the language-model provider, requests a
chat completion, pushes the branch and creates a pull request; `setup-github`
and `setup-openai` append one `KEY=VALUE` line to a config file.

We embed `generate_pr` as a pure function from a `World` (the ambient inputs:
token, branch name, diff text, remote URL, the response of the language-model
endpoint, and fault flags saying which of the external calls raises) to a
trace of observable events plus a flag saying whether the command returned
without an exception.  Each `if`/`try`/`finally` of the Python source is
mirrored structurally.  The config file is embedded as a list of text lines
with a last-occurrence-wins key=value parser (the documented semantics of the
`dotenv` loader the program uses).
-/

namespace Prbot

/-- A chat message as built in `generate_pr`: a role and a content string. -/
structure ChatMessage where
  role : String
  content : String
  deriving DecidableEq, Repr

/-- Observable events of one run: terminal output, local-repository reads,
the temporary diff file, and the outbound network calls. -/
inductive Event where
  | echo (msg : String)
  | readBranch
  | readDiff
  | writeTemp (contents : String)
  | uploadFile (contents : String)
  | chatRequest (msgs : List ChatMessage)
  | pushBranch (branch : String)
  | getRepo (ident : List String)
  | createPull (title : String) (body : String) (head : String) (base : String)
  | updatePull (body : String)
  | unlinkTemp
  | deleteRemoteFile (id : String)
  | writeConfig (line : String)
  deriving DecidableEq, Repr

/-- Which of the external calls inside the `try` block raises an exception
in this run.  `false` everywhere is the fault-free run. -/
structure Faults where
  uploadFails : Bool
  chatFails : Bool
  pushFails : Bool
  getRepoFails : Bool
  createFails : Bool
  deriving DecidableEq, Repr

/-- The fault-free environment: every external call succeeds. -/
def noFaults : Faults := ⟨false, false, false, false, false⟩

/-- The ambient state one invocation of `generate-pr` runs against.
`openPrHeads` records the head branches of the pull requests already open on
the remote (the source never reads it, which is exactly what some claims are
about); `llm` is the language-model endpoint, giving the first completion's
content for a message list; `fileId` is the id the provider assigns to a
successful upload. -/
structure World where
  githubToken : Option String
  branchName : String
  diffText : String
  remoteUrl : String
  openPrHeads : List String
  fileId : String
  llm : List ChatMessage → String
  prUrl : String
  faults : Faults

/-- Result of running a CLI command: its event trace, and whether it
returned normally (`ok = true`) or an exception propagated out. -/
structure RunResult where
  trace : List Event
  ok : Bool
  deriving Repr

/-- Python truthiness of `os.getenv("GITHUB_TOKEN")`: `not token` is true
when the variable is unset or set to the empty string. -/
def tokenFalsy : Option String → Bool
  | none => true
  | some s => s.isEmpty

/-- The fixed system message of the prompt. -/
def sysMsg : ChatMessage :=
  ⟨"system",
   "You are a helpful assistant that generates PR descriptions based on git diffs."⟩

/-- The user message of the prompt: it mentions the id of the uploaded diff
file and the branch name (f-string of the source, line 79). -/
def userMsg (fileId branch : String) : ChatMessage :=
  ⟨"user",
   "Please generate a concise PR description based on the git diff in the uploaded file: "
     ++ fileId ++ ". The branch name is " ++ branch ++ "."⟩

/-- The `messages` list sent to the chat-completion endpoint. -/
def prMessages (fileId branch : String) : List ChatMessage :=
  [sysMsg, userMsg fileId branch]

/-- Python `l[-2:]`: the last two elements (the whole list when shorter). -/
def lastTwo (l : List String) : List String :=
  l.drop (l.length - 2)

/-- The characters before the first occurrence of the separator `sep`
(the whole list when `sep` never occurs): Python `s.split(sep)[0]`. -/
def takeBeforeSub (sep : List Char) : List Char → List Char
  | [] => []
  | c :: rest =>
      if sep.isPrefixOf (c :: rest) then [] else c :: takeBeforeSub sep rest

/-- Python `s.split("/")`: the maximal runs of characters between the
slashes, empty runs included. -/
def splitSlash : List Char → List (List Char)
  | [] => [[]]
  | c :: rest =>
      match splitSlash rest with
      | [] => [[c]]
      | h :: t => if c = '/' then [] :: h :: t else (c :: h) :: t

/-- The repository identity passed to `g.get_repo`, embedding
`url.split(".git")[0].split("/")[-2:]` (source line 97): keep the part
before the first occurrence of `".git"`, split on `"/"`, keep the last two
segments.  Note the result is a list of segments, not a joined
`owner/repo` string. -/
def repoIdent (url : String) : List String :=
  lastTwo ((splitSlash (takeBeforeSub ".git".toList url.toList)).map List.asString)

/-- The `try … finally` block of `generate_pr` (source lines 60-110): upload
the diff file, request the completion, push, create the pull request; the
`finally` clause unlinks the temporary file and deletes the uploaded remote
file when `file_id` is truthy.  Returns the events and whether the block
completed without an exception. -/
def tryFinally (w : World) : List Event × Bool :=
  let body : List Event × Option String × Bool :=
    if w.faults.uploadFails then
      ([Event.uploadFile w.diffText], none, false)
    else
      let fid := w.fileId
      let msgs := prMessages fid w.branchName
      if w.faults.chatFails then
        ([Event.uploadFile w.diffText, Event.chatRequest msgs], some fid, false)
      else
        let desc := w.llm msgs
        let e1 := [Event.uploadFile w.diffText, Event.chatRequest msgs,
                   Event.echo ("Generated PR description:\n\n" ++ desc)]
        if w.faults.pushFails then
          (e1 ++ [Event.pushBranch w.branchName], some fid, false)
        else
          let e2 := e1 ++ [Event.pushBranch w.branchName,
                           Event.echo ("Pushed branch \x27" ++ w.branchName
                             ++ "\x27 to GitHub.")]
          if w.faults.getRepoFails then
            (e2 ++ [Event.getRepo (repoIdent w.remoteUrl)], some fid, false)
          else
            let e3 := e2 ++ [Event.getRepo (repoIdent w.remoteUrl)]
            if w.faults.createFails then
              (e3 ++ [Event.createPull ("PR for " ++ w.branchName) desc
                        w.branchName "main"], some fid, false)
            else
              (e3 ++ [Event.createPull ("PR for " ++ w.branchName) desc
                        w.branchName "main",
                      Event.echo ("Created PR: " ++ w.prUrl)], some fid, true)
  let fin : List Event :=
    Event.unlinkTemp ::
      (match body.2.1 with
       | some fid => if fid = "" then [] else [Event.deleteRemoteFile fid]
       | none => [])
  (body.1 ++ fin, body.2.2)

/-- The `generate-pr` command (source lines 37-110): token check, local
repository reads, empty-diff check, temporary file, then the
`try … finally` block. -/
def generate_pr (w : World) : RunResult :=
  if tokenFalsy w.githubToken then
    ⟨[Event.echo "GitHub token not found in .env file."], true⟩
  else
    let pre : List Event := [Event.readBranch, Event.readDiff]
    if w.diffText = "" then
      ⟨pre ++ [Event.echo "No changes found."], true⟩
    else
      let tf := tryFinally w
      ⟨pre ++ Event.writeTemp w.diffText :: tf.1, tf.2⟩

/-- Events that are outbound network calls. -/
def isNetwork : Event → Bool
  | Event.uploadFile _ => true
  | Event.chatRequest _ => true
  | Event.pushBranch _ => true
  | Event.getRepo _ => true
  | Event.createPull _ _ _ _ => true
  | Event.updatePull _ => true
  | Event.deleteRemoteFile _ => true
  | _ => false

/-- Events that read local repository state (branch lookup, diff). -/
def readsRepo : Event → Bool
  | Event.readBranch => true
  | Event.readDiff => true
  | _ => false

/-- Events that mutate the config file. -/
def isConfigWrite : Event → Bool
  | Event.writeConfig _ => true
  | _ => false

/-- Is this event a `createPullRequest` call? -/
def isCreate : Event → Bool
  | Event.createPull _ _ _ _ => true
  | _ => false

/-- Is this event an update of an existing pull request's body?  The event
vocabulary has it because the host API offers it; `generate_pr` never emits
it. -/
def isUpdate : Event → Bool
  | Event.updatePull _ => true
  | _ => false

/-- Number of pull-request creation calls in a trace. -/
def createCount (t : List Event) : Nat := (t.filter isCreate).length

/-- Number of pull-request body-update calls in a trace. -/
def updateCount (t : List Event) : Nat := (t.filter isUpdate).length

/-- Does `t` occur as a contiguous run inside `s`?  Python `t in s`. -/
def listContainsSub (t : List Char) : List Char → Bool
  | [] => t.isPrefixOf []
  | c :: rest => t.isPrefixOf (c :: rest) || listContainsSub t rest

/-- Does string `t` occur as a contiguous substring of `s`? -/
def strContains (s t : String) : Bool :=
  listContainsSub t.toList s.toList

/-! ### The config file

The config file is a list of text lines.  `setup_github` and `setup_openai`
(source lines 114-133) open it in append mode and write one `KEY=VALUE`
line.  `load_config` hands the file to the dotenv loader, whose documented
behaviour on plain `KEY=VALUE` lines is: split each line at its first `=`,
later occurrences of a key override earlier ones (last wins). -/

/-- Split a list of characters at the first `=`: the key before it and the
value after it; `none` when the line has no `=`. -/
def breakAtEq : List Char → Option (List Char × List Char)
  | [] => none
  | c :: rest =>
      if c = '=' then some ([], rest)
      else
        match breakAtEq rest with
        | none => none
        | some kv => some (c :: kv.1, kv.2)

/-- Parse one config line into a key/value pair (first `=` separates). -/
def parseLine (s : String) : Option (String × String) :=
  (breakAtEq s.toList).map (fun kv => (kv.1.asString, kv.2.asString))

/-- The effective value of `key` after parsing the whole file, last
occurrence winning. -/
def effectiveValue (file : List String) (key : String) : Option String :=
  file.foldl
    (fun acc line =>
      match parseLine line with
      | some kv => if kv.1 = key then some kv.2 else acc
      | none => acc)
    none

/-- The `setup-github` command appends the single line
`GITHUB_TOKEN=<token>` to the config file (source lines 123-132). -/
def setup_github (file : List String) (token : String) : List String :=
  file ++ ["GITHUB_TOKEN=" ++ token]

/-- The `setup-openai` command appends the single line
`OPENAI_API_KEY=<key>` to the config file (source lines 114-120). -/
def setup_openai (file : List String) (key : String) : List String :=
  file ++ ["OPENAI_API_KEY=" ++ key]

/-! ### Concrete environments used by witnesses and counterexamples -/

/-- A fault-free run: branch `feature-x`, diff `"+add line"`, a GitHub
remote, an open pull request for `feature-x` already on the remote. -/
def w1 : World :=
  { githubToken := some "tok"
    branchName := "feature-x"
    diffText := "+add line"
    remoteUrl := "https://github.com/acme/widget.git"
    openPrHeads := ["feature-x"]
    fileId := "file-123"
    llm := fun _ => "generated description 2"
    prUrl := "https://github.com/acme/widget/pull/7"
    faults := noFaults }

/-- Like `w1` but with an empty diff. -/
def wEmptyDiff : World := { w1 with diffText := "" }

/-- Like `w1` but with the GitHub token unset. -/
def wNoToken : World := { w1 with githubToken := none }

/-- Like `w1` but with no pull request open on the remote. -/
def wFresh : World := { w1 with openPrHeads := [] }

/-! ### Theorems -/

/-- C4: when the computed diff text is empty (and the token check passed),
`generate-pr` performs exactly the two local repository reads and the
`No changes found.` message, makes no network call, and returns normally. -/
theorem empty_diff_early_exit (w : World)
    (htok : tokenFalsy w.githubToken = false) (hdiff : w.diffText = "") :
    (generate_pr w).trace
      = [Event.readBranch, Event.readDiff, Event.echo "No changes found."] ∧
    (generate_pr w).trace.filter isNetwork = [] ∧
    (generate_pr w).ok = true := by
  simp [generate_pr, htok, hdiff, isNetwork]

/-- C4 witness: the early exit evaluated on the concrete empty-diff world. -/
theorem empty_diff_early_exit_witness :
    (generate_pr wEmptyDiff).trace
      = [Event.readBranch, Event.readDiff, Event.echo "No changes found."] ∧
    (generate_pr wEmptyDiff).trace.filter isNetwork = [] ∧
    (generate_pr wEmptyDiff).ok = true :=
  empty_diff_early_exit wEmptyDiff (by decide) (by decide)

/-- C5: when the GitHub token is unset, `generate-pr` prints only the
token-not-found message, reads no repository state, makes no network call,
and returns normally. -/
theorem missing_token_early_exit (w : World) (h : w.githubToken = none) :
    (generate_pr w).trace = [Event.echo "GitHub token not found in .env file."] ∧
    (generate_pr w).trace.filter (fun e => isNetwork e || readsRepo e) = [] ∧
    (generate_pr w).ok = true := by
  simp [generate_pr, tokenFalsy, h, isNetwork, readsRepo]

/-- C5 witness: the early exit evaluated on the concrete token-less world. -/
theorem missing_token_early_exit_witness :
    (generate_pr wNoToken).trace = [Event.echo "GitHub token not found in .env file."] ∧
    (generate_pr wNoToken).trace.filter (fun e => isNetwork e || readsRepo e) = [] ∧
    (generate_pr wNoToken).ok = true :=
  missing_token_early_exit wNoToken (by decide)

/-- C9: an empty-string token is treated exactly like an absent token —
`generate_pr` behaves identically on the two configurations, because the
source tests `not token` (truthiness), not presence. -/
theorem empty_token_same_as_absent (w : World) :
    generate_pr { w with githubToken := some "" }
      = generate_pr { w with githubToken := none } := rfl

/-- C2: on the remote URL `https://github.com/acme/widget.git` the parse
`url.split(".git")[0].split("/")[-2:]` embedded by `repoIdent` yields the
two-element segment list `["acme", "widget"]` — whose `/`-join is the
intended identity `acme/widget` — and the run passes that unjoined list,
not the joined string, to `get_repo`. -/
theorem repo_ident_unjoined_segments :
    repoIdent "https://github.com/acme/widget.git" = ["acme", "widget"] ∧
    Event.getRepo ["acme", "widget"] ∈ (generate_pr w1).trace ∧
    String.intercalate "/" (repoIdent "https://github.com/acme/widget.git")
      = "acme/widget" := by
  refine ⟨by decide, by decide, ?_⟩
  decide

/-- C1 counterexample: in `w1` an open pull request for the current branch
`feature-x` already exists, yet the run makes one creation call and zero
body-update calls — it does not update the existing pull request. -/
theorem existing_pr_not_updated_cex :
    w1.branchName = "feature-x" ∧ w1.openPrHeads = ["feature-x"] ∧
    ¬(createCount (generate_pr w1).trace = 0 ∧
      updateCount (generate_pr w1).trace = 1) := by
  refine ⟨rfl, rfl, ?_⟩
  decide

/-- C1 (amended): the Publisher never queries or updates existing pull
requests — every run that reaches it makes exactly one creation call and
zero update calls, whatever open pull requests exist on the remote, so two
successive runs make two creation calls. -/
theorem publisher_always_creates (w : World) (ps : List String)
    (htok : tokenFalsy w.githubToken = false) (hdiff : w.diffText ≠ "")
    (hfaults : w.faults = noFaults) :
    createCount (generate_pr { w with openPrHeads := ps }).trace = 1 ∧
    updateCount (generate_pr { w with openPrHeads := ps }).trace = 0 := by
  simp [generate_pr, tryFinally, htok, hdiff, hfaults, noFaults,
        createCount, updateCount, isCreate, isUpdate, List.filter_append]

/-- C1 witness: the amended statement evaluated on `w1` with the open
pull request for `feature-x` in place. -/
theorem publisher_always_creates_witness :
    createCount (generate_pr { w1 with openPrHeads := ["feature-x"] }).trace = 1 ∧
    updateCount (generate_pr { w1 with openPrHeads := ["feature-x"] }).trace = 0 :=
  publisher_always_creates w1 ["feature-x"] (by decide) (by decide) rfl

/-- C3 counterexample: in `w1` the diff text is `"+add line"`, the chat
request carries the two fixed messages, and neither the system message nor
the user message contains the diff text — the user message references the
uploaded file's id instead of embedding the diff itself. -/
theorem user_message_omits_diff_cex :
    w1.diffText = "+add line" ∧
    Event.chatRequest (prMessages "file-123" "feature-x") ∈ (generate_pr w1).trace ∧
    strContains (userMsg "file-123" "feature-x").content w1.diffText = false ∧
    strContains sysMsg.content w1.diffText = false := by
  refine ⟨rfl, by decide, by decide, by decide⟩

/-- C3 (amended): the Description Generator sends exactly two messages —
the fixed system message and a user message embedding the uploaded diff
file's id and the branch name (not the diff text itself, which travels as
the uploaded file) — and the description used afterwards is the first
completion's content verbatim. -/
theorem chat_prompt_two_messages (w : World)
    (htok : tokenFalsy w.githubToken = false) (hdiff : w.diffText ≠ "")
    (hup : w.faults.uploadFails = false) (hchat : w.faults.chatFails = false) :
    Event.chatRequest [sysMsg, userMsg w.fileId w.branchName] ∈ (generate_pr w).trace ∧
    (prMessages w.fileId w.branchName).length = 2 ∧
    Event.echo ("Generated PR description:\n\n"
        ++ w.llm (prMessages w.fileId w.branchName)) ∈ (generate_pr w).trace := by
  refine ⟨?_, rfl, ?_⟩ <;>
    simp [generate_pr, tryFinally, htok, hdiff, hup, hchat, prMessages] <;>
    rcases w.faults with ⟨u, c, p, g, r⟩ <;>
    cases p <;> cases g <;> cases r <;> simp_all

/-- C3 witness: the amended statement evaluated on `w1`. -/
theorem chat_prompt_two_messages_witness :
    Event.chatRequest [sysMsg, userMsg w1.fileId w1.branchName] ∈ (generate_pr w1).trace ∧
    (prMessages w1.fileId w1.branchName).length = 2 ∧
    Event.echo ("Generated PR description:\n\n"
        ++ w1.llm (prMessages w1.fileId w1.branchName)) ∈ (generate_pr w1).trace :=
  chat_prompt_two_messages w1 (by decide) (by decide) rfl rfl

/-- C6: a fault-free run with non-empty diff, branch `B` and no open pull
request for `B` makes exactly one creation call — title `PR for B`, body
the generated description, head `B`, base `main` — and zero update calls. -/
theorem fresh_branch_single_create (w : World)
    (htok : tokenFalsy w.githubToken = false) (hdiff : w.diffText ≠ "")
    (hfaults : w.faults = noFaults) (hnopr : w.branchName ∉ w.openPrHeads) :
    Event.createPull ("PR for " ++ w.branchName)
        (w.llm (prMessages w.fileId w.branchName)) w.branchName "main"
      ∈ (generate_pr w).trace ∧
    createCount (generate_pr w).trace = 1 ∧
    updateCount (generate_pr w).trace = 0 := by
  simp [generate_pr, tryFinally, htok, hdiff, hfaults, noFaults, prMessages,
        createCount, updateCount, isCreate, isUpdate, List.filter_append]

/-- C6 witness: evaluated on `wFresh`, where no pull request is open. -/
theorem fresh_branch_single_create_witness :
    Event.createPull ("PR for " ++ wFresh.branchName)
        (wFresh.llm (prMessages wFresh.fileId wFresh.branchName))
        wFresh.branchName "main"
      ∈ (generate_pr wFresh).trace ∧
    createCount (generate_pr wFresh).trace = 1 ∧
    updateCount (generate_pr wFresh).trace = 0 :=
  fresh_branch_single_create wFresh (by decide) (by decide) rfl (by decide)

/-- C10: every run that writes the temporary diff file unlinks it on every
exit path — whichever of the upload, chat, push, repository-lookup or
creation calls raises — and deletes the uploaded remote file exactly when
the upload succeeded. -/
theorem temp_cleanup_all_paths (w : World)
    (htok : tokenFalsy w.githubToken = false) (hdiff : w.diffText ≠ "")
    (hfid : w.fileId ≠ "") :
    Event.unlinkTemp ∈ (generate_pr w).trace ∧
    (Event.deleteRemoteFile w.fileId ∈ (generate_pr w).trace
      ↔ w.faults.uploadFails = false) := by
  rcases hw : w.faults with ⟨u, c, p, g, r⟩
  cases u <;> cases c <;> cases p <;> cases g <;> cases r <;>
    simp [generate_pr, tryFinally, htok, hdiff, hfid, hw]

/-- C10 witness: cleanup evaluated on the fault-free world `w1`. -/
theorem temp_cleanup_all_paths_witness :
    Event.unlinkTemp ∈ (generate_pr w1).trace ∧
    (Event.deleteRemoteFile w1.fileId ∈ (generate_pr w1).trace
      ↔ w1.faults.uploadFails = false) :=
  temp_cleanup_all_paths w1 (by decide) (by decide) (by decide)

/-- Splitting at the first `=` of `key ++ "=" ++ value` recovers the key
and the value when the key itself has no `=`. -/
theorem breakAtEq_key (k v : List Char) (hk : Char.ofNat 61 ∉ k) :
    breakAtEq (k ++ Char.ofNat 61 :: v) = some (k, v) := by
  induction k with
  | nil => simp [breakAtEq]
  | cons c cs ih =>
      simp only [List.mem_cons, not_or] at hk
      have hc : c ≠ Char.ofNat 61 := fun h => hk.1 h.symm
      simp [breakAtEq, hc, ih hk.2]

/-- Parsing the line `setup-github` appends yields the pair
`(GITHUB_TOKEN, token)`, whatever the token is. -/
theorem parseLine_github (b : String) :
    parseLine ("GITHUB_TOKEN=" ++ b) = some ("GITHUB_TOKEN", b) := by
  have h : ("GITHUB_TOKEN=" ++ b).toList
      = "GITHUB_TOKEN".toList ++ Char.ofNat 61 :: b.toList := by
    cases b; rfl
  rw [parseLine, h, breakAtEq_key _ _ (by decide)]
  exact congrArg some (Prod.ext (String.asString_toList _) (String.asString_toList _))

/-- C7: `setup-github` appends exactly one `GITHUB_TOKEN=<token>` line to
the config file, and under last-wins parsing, running it with token `a` and
then token `b` makes the effective token `b`. -/
theorem setup_append_last_wins (file : List String) (a b : String) :
    setup_github file a = file ++ ["GITHUB_TOKEN=" ++ a] ∧
    effectiveValue (setup_github (setup_github file a) b) "GITHUB_TOKEN" = some b := by
  refine ⟨rfl, ?_⟩
  simp [setup_github, effectiveValue, List.foldl_append, parseLine_github]

/-- The `try/finally` block of `generate-pr` contains no config-file
write, on any fault pattern. -/
theorem tryFinally_no_config (w : World) :
    (tryFinally w).1.filter isConfigWrite = [] := by
  rcases hw : w.faults with ⟨u, c, p, g, r⟩
  cases u <;> cases c <;> cases p <;> cases g <;> cases r <;>
    simp [tryFinally, hw, isConfigWrite, List.filter_append] <;>
    split_ifs <;> simp [isConfigWrite]

/-- C8: no run of `generate-pr` — on any input, any fault pattern, any exit
path — contains a config-file write; only the setup commands mutate it. -/
theorem generate_pr_preserves_config (w : World) :
    (generate_pr w).trace.filter isConfigWrite = [] := by
  rw [generate_pr]
  split
  · simp [isConfigWrite]
  · split
    · simp [isConfigWrite]
    · simp [isConfigWrite, List.filter_append, tryFinally_no_config]

end Prbot
